import Mathlib

/-!
Shallow embedding of `backup_photos.py` (PowellOnPoint/Weekenders), the
deduplication-aware incremental copy engine.

Modelling conventions:
* A filesystem entry is a record with a path identifier, an extension
  string (Python's `Path.suffix`, including the leading dot), an entry
  kind, its resolved byte content and a readability flag.
* SHA-256 is an abstract digest function `h : List Nat → List Nat`
  applied to the file's content; a failed read (`get_file_hash`
  returning `None` in the script) is modelled by `readable = false`.
* Python's `Path.is_file()` follows symbolic links: it is true for a
  regular file and for a symbolic link that resolves to a regular file,
  false for everything else (directories, other/broken links, specials).
* The Python dict `hash_cache` is an association list; insertion conses
  at the front and lookup takes the first match, so a later insertion
  for the same digest wins, exactly as dict assignment does.
* `rsync -a` of a regular source file is modelled as appending to the
  destination a regular-file entry with the same content, extension and
  readability (metadata-preserving copy); a failing copy (modelled by
  the environment predicate `cf` on the source path) raises before
  `copied_files += 1` and changes nothing.
-/

namespace BackupPhotos

inductive EntryKind where
  | regular
  | symlinkToRegular
  | other
deriving DecidableEq

structure FsEntry where
  path : Nat
  ext : String
  kind : EntryKind
  content : List Nat
  readable : Bool
deriving DecidableEq

/-- Python `Path.is_file()`: true for regular files and for symbolic links
resolving to regular files. -/
def is_file (e : FsEntry) : Bool :=
  match e.kind with
  | EntryKind.regular => true
  | EntryKind.symlinkToRegular => true
  | EntryKind.other => false

/-- Python `path.stat().st_size` (stat follows symlinks, so this is the
size of the resolved content). -/
def fsize (e : FsEntry) : Nat := e.content.length

/-- Embedding of `get_file_hash` (backup_photos.py lines 50-60): returns
the digest of the file's content, or `none` when reading fails (the
script logs and returns `None`). -/
def get_file_hash (h : List Nat → List Nat) (e : FsEntry) : Option (List Nat) :=
  if e.readable then some (h e.content) else none

/-- Lookup in the association-list model of the Python dict `hash_cache`:
first match wins, and inserts cons at the front. -/
def cacheLookup : List (List Nat × Nat) → List Nat → Option Nat
  | [], _ => none
  | (d, p) :: rest, k => if d = k then some p else cacheLookup rest k

/-- Python `str.lower()` applied to an extension string (extensions are
ASCII, where `Char.toLower` agrees with Python's lowering). Defined by
mapping over the character list so that it reduces definitionally. -/
def str_lower (s : String) : String := String.mk (s.data.map Char.toLower)

/-- Embedding of the module constant `VALID_EXTENSIONS`
(backup_photos.py line 16). -/
def VALID_EXTENSIONS : List String :=
  [".jpg", ".jpeg", ".png", ".heic", ".mov", ".mp4", ".m4v", ".gif", ".raw", ".aaf"]

/-- Embedding of `build_destination_hash_cache` (backup_photos.py lines
62-72): walk the destination entries in order, hash every entry passing
`is_file()`, and store `digest -> path` in the dict; a hash failure
inserts nothing. -/
def build_destination_hash_cache (h : List Nat → List Nat)
    (dest : List FsEntry) : List (List Nat × Nat) :=
  dest.foldl (fun c e =>
    if is_file e = true then
      match get_file_hash h e with
      | some d => (d, e.path) :: c
      | none => c
    else c) []

/-- Embedding of the loop body of `check_duplicate` (backup_photos.py
lines 74-87). The second argument is the `src_hash` variable, `none`
until the first size match forces the (single) hash computation; a
failed hash returns `False` immediately (line 83). -/
def check_duplicate_go (h : List Nat → List Nat) (src : FsEntry)
    (cache : List (List Nat × Nat)) :
    List FsEntry → Option (List Nat) → Bool
  | [], _ => false
  | e :: rest, sh =>
    if is_file e = true ∧ fsize e = fsize src then
      match sh with
      | some d =>
        if (cacheLookup cache d).isSome then true
        else check_duplicate_go h src cache rest (some d)
      | none =>
        match get_file_hash h src with
        | none => false
        | some d =>
          if (cacheLookup cache d).isSome then true
          else check_duplicate_go h src cache rest (some d)
    else check_duplicate_go h src cache rest sh

/-- Embedding of `check_duplicate` (backup_photos.py lines 74-87): walk
the destination entries with `src_hash = None` initially. -/
def check_duplicate (h : List Nat → List Nat) (src : FsEntry)
    (cache : List (List Nat × Nat)) (dest : List FsEntry) : Bool :=
  check_duplicate_go h src cache dest none

/-- Instrumented variant of `check_duplicate_go`: same result, paired
with the number of `get_file_hash(src_file)` invocations performed. -/
def check_duplicate_instr (h : List Nat → List Nat) (src : FsEntry)
    (cache : List (List Nat × Nat)) :
    List FsEntry → Option (List Nat) → Bool × Nat
  | [], _ => (false, 0)
  | e :: rest, sh =>
    if is_file e = true ∧ fsize e = fsize src then
      match sh with
      | some d =>
        if (cacheLookup cache d).isSome then (true, 0)
        else check_duplicate_instr h src cache rest (some d)
      | none =>
        match get_file_hash h src with
        | none => (false, 1)
        | some d =>
          if (cacheLookup cache d).isSome then (true, 1)
          else
            ((check_duplicate_instr h src cache rest (some d)).1,
             (check_duplicate_instr h src cache rest (some d)).2 + 1)
    else check_duplicate_instr h src cache rest sh

/-- Number of source-hash computations in one `check_duplicate` call. -/
def check_duplicate_hashOps (h : List Nat → List Nat) (src : FsEntry)
    (cache : List (List Nat × Nat)) (dest : List FsEntry) : Nat :=
  (check_duplicate_instr h src cache dest none).2

/-- Run statistics and run-scoped state of `process_photos`: the
destination tree (as seen by `rglob`), the `hash_cache` dict, and the
`copied_files` / `skipped_files` counters. -/
structure RunState where
  dest : List FsEntry
  cache : List (List Nat × Nat)
  copied : Nat
  skipped : Nat
deriving DecidableEq

/-- Per-file terminal states of the walk (spec section 4.5). -/
inductive Outcome where
  | skippedExt
  | skippedDup
  | copied
  | errored
deriving DecidableEq

/-- Destination entry created by a successful `rsync -a` of source file
`f`: a regular file at the mirrored path with identical content and
preserved metadata. -/
def copyEntry (f : FsEntry) : FsEntry :=
  { path := f.path, ext := f.ext, kind := EntryKind.regular,
    content := f.content, readable := f.readable }

/-- Embedding of the per-file body of the walk loop in `process_photos`
(backup_photos.py lines 139-164). `cf` is the environment: `cf f.path`
is true when `rsync_file` raises for that file, in which case the
`except` clause leaves all state unchanged. On a successful copy the
script increments `copied_files`, then hashes the source file and
inserts into the dict only if that hash succeeds (lines 160-162). -/
def stepFile (h : List Nat → List Nat) (cf : Nat → Bool)
    (st : RunState) (f : FsEntry) : RunState × Outcome :=
  if VALID_EXTENSIONS.contains (str_lower f.ext) = false then
    ({ st with skipped := st.skipped + 1 }, Outcome.skippedExt)
  else if check_duplicate h f st.cache st.dest = true then
    ({ st with skipped := st.skipped + 1 }, Outcome.skippedDup)
  else if cf f.path = true then
    (st, Outcome.errored)
  else
    match get_file_hash h f with
    | some d =>
      ({ st with dest := st.dest ++ [copyEntry f],
                 cache := (d, f.path) :: st.cache,
                 copied := st.copied + 1 }, Outcome.copied)
    | none =>
      ({ st with dest := st.dest ++ [copyEntry f],
                 copied := st.copied + 1 }, Outcome.copied)

/-- Number of `get_file_hash(src_file)` invocations in one iteration of
the walk loop: those made by `check_duplicate`, plus the one made after
a successful copy (backup_photos.py line 160). -/
def stepHashOps (h : List Nat → List Nat) (cf : Nat → Bool)
    (st : RunState) (f : FsEntry) : Nat :=
  if VALID_EXTENSIONS.contains (str_lower f.ext) = false then 0
  else if check_duplicate h f st.cache st.dest = true then
    check_duplicate_hashOps h f st.cache st.dest
  else if cf f.path = true then
    check_duplicate_hashOps h f st.cache st.dest
  else
    check_duplicate_hashOps h f st.cache st.dest + 1

/-- Walk loop of `process_photos` over a list of source files, threading
the run state and recording each file's outcome. -/
def runFiles (h : List Nat → List Nat) (cf : Nat → Bool)
    (st : RunState) : List FsEntry → RunState × List Outcome
  | [] => (st, [])
  | f :: rest =>
    ((runFiles h cf (stepFile h cf st f).1 rest).1,
     (stepFile h cf st f).2 :: (runFiles h cf (stepFile h cf st f).1 rest).2)

/-- Embedding of a run of `process_photos` (backup_photos.py lines
121-171) over the core engine: build the destination hash cache once
from the destination tree `dest0`, then walk the source files. Mount /
permission checks, source discovery, logging and the progress bar are
the excluded collaborators. -/
def process_photos (h : List Nat → List Nat) (cf : Nat → Bool)
    (srcs : List FsEntry) (dest0 : List FsEntry) : RunState × List Outcome :=
  runFiles h cf
    { dest := dest0, cache := build_destination_hash_cache h dest0,
      copied := 0, skipped := 0 } srcs

/-- Path mapped by the last entry of the walk that passes the file test
and hashes to digest `d` (specification-side characterisation of the
dict built by `build_destination_hash_cache`). -/
def lastHashMatch (h : List Nat → List Nat) (d : List Nat) :
    List FsEntry → Option Nat
  | [] => none
  | e :: rest =>
    match lastHashMatch h d rest with
    | some p => some p
    | none =>
      if is_file e = true ∧ get_file_hash h e = some d then some e.path
      else none

/-! ### Lemmas about the duplicate classifier -/

/-- Once the source hash is available, the loop returns true exactly when
some remaining entry passes the file test with a matching size and the
digest is a key of the cache. -/
theorem check_duplicate_go_some (h : List Nat → List Nat) (src : FsEntry)
    (cache : List (List Nat × Nat)) (l : List FsEntry) (d : List Nat) :
    check_duplicate_go h src cache l (some d) = true ↔
      (∃ e ∈ l, is_file e = true ∧ fsize e = fsize src) ∧
        (cacheLookup cache d).isSome = true := by
  induction l with
  | nil => simp [check_duplicate_go]
  | cons e rest ih =>
    by_cases hm : is_file e = true ∧ fsize e = fsize src
    · by_cases hc : (cacheLookup cache d).isSome = true
      · simp [check_duplicate_go, hm, hc]
      · simp [check_duplicate_go, hm, hc, ih]
    · simp [check_duplicate_go, hm, ih]

/-- For a readable source file, `check_duplicate_go` started with no
cached hash returns true exactly when some entry passes the file test
with a matching size and the source digest is a key of the cache. -/
theorem check_duplicate_go_none (h : List Nat → List Nat) (src : FsEntry)
    (cache : List (List Nat × Nat)) (l : List FsEntry)
    (hr : src.readable = true) :
    check_duplicate_go h src cache l none = true ↔
      (∃ e ∈ l, is_file e = true ∧ fsize e = fsize src) ∧
        (cacheLookup cache (h src.content)).isSome = true := by
  induction l with
  | nil => simp [check_duplicate_go]
  | cons e rest ih =>
    by_cases hm : is_file e = true ∧ fsize e = fsize src
    · by_cases hc : (cacheLookup cache (h src.content)).isSome = true
      · simp [check_duplicate_go, hm, hc, get_file_hash, hr]
      · simp [check_duplicate_go, hm, hc, get_file_hash, hr,
          check_duplicate_go_some]
    · simp [check_duplicate_go, hm, ih]

/-- An unreadable source file is always classified "not a duplicate"
(the silent fallback of backup_photos.py line 83). -/
theorem check_duplicate_go_unreadable (h : List Nat → List Nat)
    (src : FsEntry) (cache : List (List Nat × Nat)) (l : List FsEntry)
    (hr : src.readable = false) :
    check_duplicate_go h src cache l none = false := by
  induction l with
  | nil => simp [check_duplicate_go]
  | cons e rest ih =>
    by_cases hm : is_file e = true ∧ fsize e = fsize src
    · simp [check_duplicate_go, hm, get_file_hash, hr]
    · simp [check_duplicate_go, hm, ih]

/-- The instrumented loop computes the same truth value. -/
theorem check_duplicate_instr_fst (h : List Nat → List Nat) (src : FsEntry)
    (cache : List (List Nat × Nat)) (l : List FsEntry)
    (sh : Option (List Nat)) :
    (check_duplicate_instr h src cache l sh).1 =
      check_duplicate_go h src cache l sh := by
  induction l generalizing sh with
  | nil => simp [check_duplicate_instr, check_duplicate_go]
  | cons e rest ih =>
    by_cases hm : is_file e = true ∧ fsize e = fsize src
    · cases sh with
      | some d =>
        by_cases hc : (cacheLookup cache d).isSome = true
        · simp [check_duplicate_instr, check_duplicate_go, hm, hc]
        · simp [check_duplicate_instr, check_duplicate_go, hm, hc, ih]
      | none =>
        cases hg : get_file_hash h src with
        | none => simp [check_duplicate_instr, check_duplicate_go, hm, hg]
        | some d =>
          by_cases hc : (cacheLookup cache d).isSome = true
          · simp [check_duplicate_instr, check_duplicate_go, hm, hg, hc]
          · simp [check_duplicate_instr, check_duplicate_go, hm, hg, hc, ih]
    · simp [check_duplicate_instr, check_duplicate_go, hm, ih]

/-- After the source hash has been computed it is never computed again. -/
theorem check_duplicate_instr_some_ops (h : List Nat → List Nat)
    (src : FsEntry) (cache : List (List Nat × Nat)) (l : List FsEntry)
    (d : List Nat) :
    (check_duplicate_instr h src cache l (some d)).2 = 0 := by
  induction l with
  | nil => simp [check_duplicate_instr]
  | cons e rest ih =>
    by_cases hm : is_file e = true ∧ fsize e = fsize src
    · by_cases hc : (cacheLookup cache d).isSome = true
      · simp [check_duplicate_instr, hm, hc]
      · simp [check_duplicate_instr, hm, hc, ih]
    · simp [check_duplicate_instr, hm, ih]

/-- The source hash is computed exactly once when some entry passes the
file test with a matching size, and never otherwise. -/
theorem check_duplicate_instr_none_ops (h : List Nat → List Nat)
    (src : FsEntry) (cache : List (List Nat × Nat)) (l : List FsEntry) :
    (check_duplicate_instr h src cache l none).2 =
      if ∃ e ∈ l, is_file e = true ∧ fsize e = fsize src then 1 else 0 := by
  induction l with
  | nil => simp [check_duplicate_instr]
  | cons e rest ih =>
    by_cases hm : is_file e = true ∧ fsize e = fsize src
    · cases hg : get_file_hash h src with
      | none => simp [check_duplicate_instr, hm, hg]
      | some d =>
        by_cases hc : (cacheLookup cache d).isSome = true
        · simp [check_duplicate_instr, hm, hg, hc]
        · simp [check_duplicate_instr, hm, hg, hc,
            check_duplicate_instr_some_ops]
    · rw [check_duplicate_instr]
      simp only [hm, if_false]
      rw [ih]
      by_cases hr : ∃ e ∈ rest, is_file e = true ∧ fsize e = fsize src
      · have : ∃ x ∈ e :: rest, is_file x = true ∧ fsize x = fsize src := by
          obtain ⟨x, hx, hx2⟩ := hr
          exact ⟨x, List.mem_cons_of_mem _ hx, hx2⟩
        simp [hr, this]
      · have : ¬ ∃ x ∈ e :: rest, is_file x = true ∧ fsize x = fsize src := by
          intro hcon
          obtain ⟨x, hx, hx2⟩ := hcon
          rcases List.mem_cons.mp hx with hx | hx
          · exact hm (hx ▸ hx2)
          · exact hr ⟨x, hx, hx2⟩
        simp [hr, this, hm]

/-! ### Lemmas about the index build -/

/-- Folding the dict-insertion step over a walk suffix: the result of a
lookup is the path of the last inserting entry of the suffix, falling
back to the accumulated dict. -/
theorem build_foldl_lookup (h : List Nat → List Nat) (l : List FsEntry)
    (c : List (List Nat × Nat)) (d : List Nat) :
    cacheLookup (l.foldl (fun c e =>
      if is_file e = true then
        match get_file_hash h e with
        | some d => (d, e.path) :: c
        | none => c
      else c) c) d =
      match lastHashMatch h d l with
      | some p => some p
      | none => cacheLookup c d := by
  induction l generalizing c with
  | nil => simp [lastHashMatch]
  | cons e rest ih =>
    rw [List.foldl_cons, ih]
    cases hrest : lastHashMatch h d rest with
    | some p => simp [lastHashMatch, hrest]
    | none =>
      simp only [lastHashMatch, hrest]
      by_cases hf : is_file e = true
      · cases hg : get_file_hash h e with
        | none => simp [hf, hg]
        | some d' =>
          by_cases hd : d' = d
          · subst hd
            simp [hf, hg, cacheLookup]
          · simp [hf, hg, hd, cacheLookup]
      · simp [hf]

/-- Lookup in the built cache finds exactly the last walk entry that
passes the file test and hashes to the queried digest. -/
theorem build_lookup (h : List Nat → List Nat) (l : List FsEntry)
    (d : List Nat) :
    cacheLookup (build_destination_hash_cache h l) d = lastHashMatch h d l := by
  rw [build_destination_hash_cache, build_foldl_lookup]
  cases lastHashMatch h d l <;> simp [cacheLookup]

/-- A digest is found by `lastHashMatch` exactly when some entry passes
the file test and hashes to it. -/
theorem lastHashMatch_isSome (h : List Nat → List Nat) (l : List FsEntry)
    (d : List Nat) :
    (lastHashMatch h d l).isSome = true ↔
      ∃ e ∈ l, is_file e = true ∧ get_file_hash h e = some d := by
  induction l with
  | nil => simp [lastHashMatch]
  | cons e rest ih =>
    cases hrest : lastHashMatch h d rest with
    | some p =>
      simp only [lastHashMatch, hrest]
      constructor
      · intro _
        obtain ⟨x, hx, hx2⟩ := ih.mp (by simp [hrest])
        exact ⟨x, List.mem_cons_of_mem _ hx, hx2⟩
      · intro _
        simp
    | none =>
      simp only [lastHashMatch, hrest]
      by_cases he : is_file e = true ∧ get_file_hash h e = some d
      · simp [he]
      · have hnr : ¬ ∃ x ∈ rest, is_file x = true ∧ get_file_hash h x = some d := by
          intro hcon
          have := ih.mpr hcon
          simp [hrest] at this
        constructor
        · intro hcon
          simp [he] at hcon
        · intro hcon
          obtain ⟨x, hx, hx2⟩ := hcon
          rcases List.mem_cons.mp hx with hx | hx
          · exact absurd (hx ▸ hx2) he
          · exact absurd ⟨x, hx, hx2⟩ hnr

/-! ### Lemmas about the walk loop -/

/-- The walk over an appended list is the walk over the first part
followed by the walk over the second from the intermediate state. -/
theorem runFiles_append (h : List Nat → List Nat) (cf : Nat → Bool)
    (st : RunState) (xs ys : List FsEntry) :
    runFiles h cf st (xs ++ ys) =
      ((runFiles h cf (runFiles h cf st xs).1 ys).1,
       (runFiles h cf st xs).2 ++ (runFiles h cf (runFiles h cf st xs).1 ys).2) := by
  induction xs generalizing st with
  | nil => simp [runFiles]
  | cons f rest ih => simp [runFiles, ih]

/-- One walk step never removes a destination entry. -/
theorem stepFile_dest_mono (h : List Nat → List Nat) (cf : Nat → Bool)
    (st : RunState) (f e : FsEntry) (he : e ∈ st.dest) :
    e ∈ (stepFile h cf st f).1.dest := by
  rw [stepFile]
  split
  · exact he
  · split
    · exact he
    · split
      · exact he
      · cases get_file_hash h f <;> exact List.mem_append_left _ he

/-- One walk step never removes a digest from the cache. -/
theorem stepFile_cache_mono (h : List Nat → List Nat) (cf : Nat → Bool)
    (st : RunState) (f : FsEntry) (k : List Nat)
    (hk : (cacheLookup st.cache k).isSome = true) :
    (cacheLookup (stepFile h cf st f).1.cache k).isSome = true := by
  rw [stepFile]
  split
  · exact hk
  · split
    · exact hk
    · split
      · exact hk
      · cases get_file_hash h f with
        | some d =>
          by_cases hd : d = k <;> simp [cacheLookup, hd, hk]
        | none => exact hk

/-- The walk never removes a destination entry. -/
theorem runFiles_dest_mono (h : List Nat → List Nat) (cf : Nat → Bool)
    (st : RunState) (l : List FsEntry) (e : FsEntry) (he : e ∈ st.dest) :
    e ∈ (runFiles h cf st l).1.dest := by
  induction l generalizing st with
  | nil => exact he
  | cons f rest ih =>
    rw [runFiles]
    exact ih _ (stepFile_dest_mono h cf st f e he)

/-- The walk never removes a digest from the cache. -/
theorem runFiles_cache_mono (h : List Nat → List Nat) (cf : Nat → Bool)
    (st : RunState) (l : List FsEntry) (k : List Nat)
    (hk : (cacheLookup st.cache k).isSome = true) :
    (cacheLookup (runFiles h cf st l).1.cache k).isSome = true := by
  induction l generalizing st with
  | nil => exact hk
  | cons f rest ih =>
    rw [runFiles]
    exact ih _ (stepFile_cache_mono h cf st f k hk)

/-- A step that reports `copied` for a readable file appends the copy to
the destination, increments `copied_files` and inserts the file's digest
at the front of the cache. -/
theorem stepFile_copied (h : List Nat → List Nat) (cf : Nat → Bool)
    (st : RunState) (f : FsEntry) (hr : f.readable = true)
    (hc : (stepFile h cf st f).2 = Outcome.copied) :
    (stepFile h cf st f).1 =
      { st with dest := st.dest ++ [copyEntry f],
                cache := (h f.content, f.path) :: st.cache,
                copied := st.copied + 1 } := by
  rw [stepFile] at hc ⊢
  by_cases h1 : VALID_EXTENSIONS.contains (str_lower f.ext) = false
  · rw [if_pos h1] at hc
    simp at hc
  · rw [if_neg h1] at hc ⊢
    by_cases h2 : check_duplicate h f st.cache st.dest = true
    · rw [if_pos h2] at hc
      simp at hc
    · rw [if_neg h2] at hc ⊢
      by_cases h3 : cf f.path = true
      · rw [if_pos h3] at hc
        simp at hc
      · rw [if_neg h3]
        simp only [get_file_hash, hr, if_true]

/-- Helper for C9: without any size match the classifier loop never
returns true, whatever the state of the cached source hash. -/
theorem check_duplicate_go_no_size_match (h : List Nat → List Nat)
    (src : FsEntry) (cache : List (List Nat × Nat)) (l : List FsEntry)
    (sh : Option (List Nat))
    (hn : ∀ e ∈ l, ¬(is_file e = true ∧ fsize e = fsize src)) :
    check_duplicate_go h src cache l sh = false := by
  induction l generalizing sh with
  | nil => simp [check_duplicate_go]
  | cons e rest ih =>
    have he := hn e (List.mem_cons_self e rest)
    simp only [check_duplicate_go, he, if_false]
    exact ih _ (fun x hx => hn x (List.mem_cons_of_mem _ hx))

/-! ### Claim theorems -/

/-- Unreadable source file used in the C1 evaluation: size 1, and its
content digest `[7]` is even a key of the supplied index. -/
def srcC1 : FsEntry :=
  { path := 10, ext := ".jpg", kind := EntryKind.regular, content := [7],
    readable := false }

/-- Destination regular file of matching size 1 used in the C1 evaluation. -/
def destC1 : FsEntry :=
  { path := 11, ext := ".jpg", kind := EntryKind.regular, content := [9],
    readable := true }

/-- C1: the code violates the claim. When hashing the source file fails
during duplicate classification (here an unreadable source file, a
size-matching destination file, and the source's digest present as a key
of the index), `check_duplicate` returns the classification result
"not a duplicate" (False, backup_photos.py line 83) instead of
propagating an error; its return type has no error case at all, so the
Orchestrator proceeds to copy the file. -/
theorem c1_hash_failure_returns_not_duplicate :
    check_duplicate id srcC1 [([7], 11)] [destC1] = false ∧
      srcC1.readable = false := by
  decide

/-- Unreadable allow-listed source file used in the C2 evaluation. -/
def aC2 : FsEntry :=
  { path := 0, ext := ".jpg", kind := EntryKind.regular, content := [0],
    readable := false }

/-- C2: the code violates the claim. Starting from an empty destination,
the first run copies the (unreadable) source file; on the second run
against the unchanged source and the destination produced by the first
run, the file's size matches its own copy, the source hash computation
fails again, `check_duplicate` falls back to "not a duplicate", and the
file is copied a second time: `copiedFiles = 1`, not 0, and the file is
not classified as a duplicate. -/
theorem c2_second_run_copies_again :
    (process_photos id (fun _ => false) [aC2]
        (process_photos id (fun _ => false) [aC2] []).1.dest).1.copied = 1 ∧
    (process_photos id (fun _ => false) [aC2]
        (process_photos id (fun _ => false) [aC2] []).1.dest).2 =
      [Outcome.copied] := by
  decide

/-- Readable source file used in the C3 evaluation. -/
def aC3 : FsEntry :=
  { path := 1, ext := ".jpg", kind := EntryKind.regular, content := [0, 1],
    readable := true }

/-- Unreadable source file with content byte-identical to `aC3` but a
different path, used in the C3 evaluation. -/
def bC3 : FsEntry :=
  { path := 2, ext := ".jpg", kind := EntryKind.regular, content := [0, 1],
    readable := true }

/-- C3: the code violates the claim. Two source files with byte-identical
content: the first is copied and its digest inserted, but hashing the
second fails, `check_duplicate` falls back to "not a duplicate"
(backup_photos.py line 83), and the second identical file is copied as
well -- both of the pair end up copied. -/
theorem c3_identical_pair_both_copied :
    (process_photos id (fun _ => false)
        [aC3, { bC3 with readable := false }] []).1.copied = 2 ∧
    (process_photos id (fun _ => false)
        [aC3, { bC3 with readable := false }] []).2 =
      [Outcome.copied, Outcome.copied] := by
  decide

/-- C4: for a source file whose copy fails (after passing the extension
filter and being classified non-duplicate), the step reports an error
outcome and leaves the whole run state unchanged (no index update, no
`copied_files` or `skipped_files` increment), and the run over the
remaining files continues exactly as if the failing file were absent:
the final state equals that of the run without it, and every other
file's outcome is unchanged. -/
theorem c4_copy_failure_isolated (h : List Nat → List Nat) (cf : Nat → Bool)
    (st0 : RunState) (pre post : List FsEntry) (b : FsEntry)
    (hext : VALID_EXTENSIONS.contains (str_lower b.ext) = true)
    (hcf : cf b.path = true)
    (hdup : check_duplicate h b (runFiles h cf st0 pre).1.cache
        (runFiles h cf st0 pre).1.dest = false) :
    stepFile h cf (runFiles h cf st0 pre).1 b =
      ((runFiles h cf st0 pre).1, Outcome.errored) ∧
    (runFiles h cf st0 (pre ++ b :: post)).1 =
      (runFiles h cf st0 (pre ++ post)).1 ∧
    (runFiles h cf st0 (pre ++ b :: post)).2 =
      (runFiles h cf st0 pre).2 ++ Outcome.errored ::
        (runFiles h cf (runFiles h cf st0 pre).1 post).2 := by
  have hstep : stepFile h cf (runFiles h cf st0 pre).1 b =
      ((runFiles h cf st0 pre).1, Outcome.errored) := by
    rw [stepFile, if_neg (by rw [hext]; decide), if_neg (by simp [hdup]),
      if_pos hcf]
  refine ⟨hstep, ?_, ?_⟩
  · rw [runFiles_append, runFiles_append]
    simp only [runFiles, hstep]
  · rw [runFiles_append]
    simp only [runFiles, hstep]

/-- Files surrounding the failing file in the C4 witness run. -/
def preC4 : List FsEntry :=
  [{ path := 1, ext := ".jpg", kind := EntryKind.regular, content := [1],
     readable := true }]

/-- File whose copy fails in the C4 witness run. -/
def bC4 : FsEntry :=
  { path := 2, ext := ".jpg", kind := EntryKind.regular, content := [2, 2],
    readable := true }

/-- File processed after the failing one in the C4 witness run. -/
def postC4 : List FsEntry :=
  [{ path := 3, ext := ".png", kind := EntryKind.regular, content := [3, 3, 3],
     readable := true }]

/-- Copy-failure environment of the C4 witness: only path 2 fails. -/
def cfC4 : Nat → Bool := fun p => p == 2

/-- Initial state of the C4 witness run. -/
def st0C4 : RunState := { dest := [], cache := [], copied := 0, skipped := 0 }

/-- Witness for C4 at a concrete three-file run whose middle file fails
to copy. -/
theorem c4_witness :
    VALID_EXTENSIONS.contains (str_lower bC4.ext) = true ∧
    cfC4 bC4.path = true ∧
    check_duplicate id bC4 (runFiles id cfC4 st0C4 preC4).1.cache
      (runFiles id cfC4 st0C4 preC4).1.dest = false ∧
    (stepFile id cfC4 (runFiles id cfC4 st0C4 preC4).1 bC4 =
        ((runFiles id cfC4 st0C4 preC4).1, Outcome.errored) ∧
      (runFiles id cfC4 st0C4 (preC4 ++ bC4 :: postC4)).1 =
        (runFiles id cfC4 st0C4 (preC4 ++ postC4)).1 ∧
      (runFiles id cfC4 st0C4 (preC4 ++ bC4 :: postC4)).2 =
        (runFiles id cfC4 st0C4 preC4).2 ++ Outcome.errored ::
          (runFiles id cfC4 (runFiles id cfC4 st0C4 preC4).1 postC4).2) :=
  ⟨by decide, by decide, by decide,
   c4_copy_failure_isolated id cfC4 st0C4 preC4 postC4 bC4
     (by decide) (by decide) (by decide)⟩

/-- Unreadable source file used in the C5 counterexample. -/
def fC5 : FsEntry :=
  { path := 4, ext := ".jpg", kind := EntryKind.regular, content := [5],
    readable := false }

/-- Initial state used by the C5 counterexample and witness. -/
def st0C5 : RunState := { dest := [], cache := [], copied := 0, skipped := 0 }

/-- C5 counterexample: a copy that succeeds (outcome `copied`) after
which no digest at all is inserted into the index, because the post-copy
hash of the source file fails (backup_photos.py lines 160-162): the
cache is still empty. -/
theorem c5_counterexample :
    (stepFile id (fun _ => false) st0C5 fC5).2 = Outcome.copied ∧
    (stepFile id (fun _ => false) st0C5 fC5).1.cache = [] := by
  decide

/-- C5 (amended): for every successful copy whose source file's hash is
computable, the content digest -- computed from the source file, and
equal to the destination copy's digest since the copy preserves the
bytes -- is inserted into the index mapped to the destination path
before the step ends (hence before the next file's duplicate check), and
the destination copy is appended to the destination tree. -/
theorem c5_insert_after_successful_copy (h : List Nat → List Nat)
    (cf : Nat → Bool) (st : RunState) (f : FsEntry)
    (hr : f.readable = true)
    (hc : (stepFile h cf st f).2 = Outcome.copied) :
    (stepFile h cf st f).1.cache =
      (h (copyEntry f).content, f.path) :: st.cache ∧
    (stepFile h cf st f).1.dest = st.dest ++ [copyEntry f] := by
  rw [stepFile_copied h cf st f hr hc]
  exact ⟨rfl, rfl⟩

/-- Readable source file used in the C5 witness. -/
def fC5w : FsEntry :=
  { path := 5, ext := ".jpg", kind := EntryKind.regular, content := [6],
    readable := true }

/-- Witness for C5 (amended) at a concrete successful copy. -/
theorem c5_witness :
    fC5w.readable = true ∧
    (stepFile id (fun _ => false) st0C5 fC5w).2 = Outcome.copied ∧
    ((stepFile id (fun _ => false) st0C5 fC5w).1.cache =
        (id (copyEntry fC5w).content, fC5w.path) :: st0C5.cache ∧
      (stepFile id (fun _ => false) st0C5 fC5w).1.dest =
        st0C5.dest ++ [copyEntry fC5w]) :=
  ⟨rfl, by decide,
   c5_insert_after_successful_copy id (fun _ => false) st0C5 fC5w rfl
     (by decide)⟩

/-- Readable source file used in the C6 counterexample. -/
def srcC6 : FsEntry :=
  { path := 20, ext := ".jpg", kind := EntryKind.regular, content := [7],
    readable := true }

/-- Symbolic link resolving to a regular file, used in the C6
counterexample: its resolved size matches the source. -/
def slC6 : FsEntry :=
  { path := 21, ext := ".jpg", kind := EntryKind.symlinkToRegular,
    content := [9], readable := true }

/-- C6 counterexample: the classifier returns "duplicate" although no
regular file under the destination root has a matching size -- the only
size-matching entry is a symbolic link resolving to a regular file,
which Python's `Path.is_file()` accepts. This refutes the claim's
"if and only if some regular file ... has size equal" as stated. -/
theorem c6_counterexample :
    check_duplicate id srcC6 [([7], 5)] [slC6] = true ∧
    ¬ ∃ e ∈ [slC6], e.kind = EntryKind.regular ∧ fsize e = fsize srcC6 := by
  decide

/-- C6 (amended): for every source file whose hash is computable, the
classifier returns "duplicate" iff some destination entry accepted by
the file test (a regular file or a symbolic link resolving to one) has
size equal to the source's and the source's digest is a key of the
index; moreover the source hash is computed exactly once when a size
match exists -- on the first size match -- and never otherwise, so at
most once per classification call. -/
theorem c6_classification_characterised (h : List Nat → List Nat)
    (src : FsEntry) (cache : List (List Nat × Nat)) (dest : List FsEntry)
    (hr : src.readable = true) :
    (check_duplicate h src cache dest = true ↔
      ((∃ e ∈ dest, is_file e = true ∧ fsize e = fsize src) ∧
        (cacheLookup cache (h src.content)).isSome = true)) ∧
    check_duplicate_hashOps h src cache dest =
      (if ∃ e ∈ dest, is_file e = true ∧ fsize e = fsize src then 1
       else 0) :=
  ⟨check_duplicate_go_none h src cache dest hr,
   check_duplicate_instr_none_ops h src cache dest⟩

/-- Regular destination file of matching size used in the C6 witness. -/
def dC6w : FsEntry :=
  { path := 22, ext := ".jpg", kind := EntryKind.regular, content := [9],
    readable := true }

/-- Witness for C6 (amended) at a concrete classification call. -/
theorem c6_witness :
    srcC6.readable = true ∧
    ((check_duplicate id srcC6 [([7], 9)] [dC6w] = true ↔
        ((∃ e ∈ [dC6w], is_file e = true ∧ fsize e = fsize srcC6) ∧
          (cacheLookup [([7], 9)] (id srcC6.content)).isSome = true)) ∧
      check_duplicate_hashOps id srcC6 [([7], 9)] [dC6w] =
        (if ∃ e ∈ [dC6w], is_file e = true ∧ fsize e = fsize srcC6 then 1
         else 0)) :=
  ⟨rfl, c6_classification_characterised id srcC6 [([7], 9)] [dC6w] rfl⟩

/-- Symbolic link resolving to a regular file, used in the C7
counterexample. -/
def slC7 : FsEntry :=
  { path := 3, ext := ".jpg", kind := EntryKind.symlinkToRegular,
    content := [1], readable := true }

/-- C7 counterexample: the index build hashes and inserts an entry that
is a symbolic link resolving to a regular file (Python's `is_file()`
accepts it), refuting "enumerates exactly the regular files ...,
excluding symbolic links": the built index maps the link's digest to the
link's path although the walk contains no regular file. -/
theorem c7_counterexample :
    cacheLookup (build_destination_hash_cache id [slC7]) [1] = some 3 ∧
    ¬ ∃ e ∈ [slC7], e.kind = EntryKind.regular := by
  decide

/-- C7 (amended): the index build inserts `digest -> path` for exactly
the walked entries accepted by the file test -- regular files and
symbolic links resolving to regular files, other entries excluded --
whose hash computation succeeds; and when several such entries share a
digest, the one encountered last in the walk is the one mapped
(`lastHashMatch` returns the path of the last accepted entry hashing to
the queried digest). -/
theorem c7_build_characterised (h : List Nat → List Nat)
    (l : List FsEntry) (d : List Nat) :
    cacheLookup (build_destination_hash_cache h l) d = lastHashMatch h d l :=
  build_lookup h l d

/-- C8: a source file whose lower-cased extension is not in the
allow-list is counted as skipped with outcome `skippedExt` and nothing
else changes, whatever its content (the content is replaced by an
arbitrary `c2` on both sides), and no duplicate check or source-hash
computation is performed (zero hash operations in the step). -/
theorem c8_extension_filter (h : List Nat → List Nat) (cf : Nat → Bool)
    (st : RunState) (f : FsEntry) (c2 : List Nat)
    (hext : VALID_EXTENSIONS.contains (str_lower f.ext) = false) :
    stepFile h cf st { f with content := c2 } =
      ({ st with skipped := st.skipped + 1 }, Outcome.skippedExt) ∧
    stepHashOps h cf st { f with content := c2 } = 0 := by
  have hext2 : VALID_EXTENSIONS.contains
      (str_lower ({ f with content := c2 } : FsEntry).ext) = false := hext
  exact ⟨by rw [stepFile, if_pos hext2], by rw [stepHashOps, if_pos hext2]⟩

/-- Non-media source file used in the C8 witness. -/
def fC8 : FsEntry :=
  { path := 30, ext := ".txt", kind := EntryKind.regular, content := [1],
    readable := true }

/-- Initial state of the C8 witness. -/
def st0C8 : RunState :=
  { dest := [destC1], cache := [([9], 11)], copied := 0, skipped := 0 }

/-- Witness for C8 at a concrete `.txt` file. -/
theorem c8_witness :
    VALID_EXTENSIONS.contains (str_lower fC8.ext) = false ∧
    (stepFile id (fun _ => false) st0C8 { fC8 with content := [9, 9] } =
        ({ st0C8 with skipped := st0C8.skipped + 1 }, Outcome.skippedExt) ∧
      stepHashOps id (fun _ => false) st0C8 { fC8 with content := [9, 9] } = 0) :=
  ⟨by decide,
   c8_extension_filter id (fun _ => false) st0C8 fC8 [9, 9] (by decide)⟩

/-- C9: for a source file whose size matches no destination entry
accepted by the file test, the classifier returns "not a duplicate"
without a single source-hash computation; consequently, for any second
source file of the same size (in particular one with different content),
the classification result is identical -- it does not depend on the
source file's content. -/
theorem c9_size_mismatch_no_hash (h : List Nat → List Nat)
    (src1 src2 : FsEntry) (cache : List (List Nat × Nat))
    (dest : List FsEntry)
    (hsz : ∀ e ∈ dest, is_file e = true → fsize e ≠ fsize src1)
    (hss : fsize src2 = fsize src1) :
    check_duplicate h src1 cache dest = false ∧
    check_duplicate_hashOps h src1 cache dest = 0 ∧
    check_duplicate h src2 cache dest = check_duplicate h src1 cache dest := by
  have hn1 : ∀ e ∈ dest, ¬(is_file e = true ∧ fsize e = fsize src1) := by
    intro e he hcon
    exact hsz e he hcon.1 hcon.2
  have hn2 : ∀ e ∈ dest, ¬(is_file e = true ∧ fsize e = fsize src2) := by
    intro e he hcon
    exact hsz e he hcon.1 (hss ▸ hcon.2)
  refine ⟨check_duplicate_go_no_size_match h src1 cache dest none hn1, ?_, ?_⟩
  · rw [check_duplicate_hashOps, check_duplicate_instr_none_ops]
    simp only [ite_eq_right_iff]
    intro hcon
    obtain ⟨e, he, he2⟩ := hcon
    exact absurd he2 (hn1 e he)
  · show check_duplicate_go h src2 cache dest none =
        check_duplicate_go h src1 cache dest none
    rw [check_duplicate_go_no_size_match h src1 cache dest none hn1,
      check_duplicate_go_no_size_match h src2 cache dest none hn2]

/-- First source file of the C9 witness (size 2). -/
def src1C9 : FsEntry :=
  { path := 40, ext := ".jpg", kind := EntryKind.regular, content := [1, 2],
    readable := true }

/-- Second source file of the C9 witness: same size, different content. -/
def src2C9 : FsEntry :=
  { path := 41, ext := ".jpg", kind := EntryKind.regular, content := [3, 4],
    readable := true }

/-- Destination entry of non-matching size used in the C9 witness. -/
def dC9 : FsEntry :=
  { path := 42, ext := ".jpg", kind := EntryKind.regular, content := [7],
    readable := true }

/-- Witness for C9 at concrete same-size sources and a size-mismatched
destination. -/
theorem c9_witness :
    (∀ e ∈ [dC9], is_file e = true → fsize e ≠ fsize src1C9) ∧
    fsize src2C9 = fsize src1C9 ∧
    (check_duplicate id src1C9 [([1, 2], 9)] [dC9] = false ∧
      check_duplicate_hashOps id src1C9 [([1, 2], 9)] [dC9] = 0 ∧
      check_duplicate id src2C9 [([1, 2], 9)] [dC9] =
        check_duplicate id src1C9 [([1, 2], 9)] [dC9]) :=
  ⟨by decide, by decide,
   c9_size_mismatch_no_hash id src1C9 src2C9 [([1, 2], 9)] [dC9]
     (by decide) (by decide)⟩

/-- C10: a destination entry accepted by the file test whose hash
computation fails is silently omitted -- appending it to the walk leaves
the built index unchanged (no raise is possible: the build is a total
function) -- and a digest is a key of the built index exactly when some
walked entry accepted by the file test hashed successfully to it. -/
theorem c10_build_omits_failed_hash (h : List Nat → List Nat)
    (l : List FsEntry) (e : FsEntry) (d : List Nat)
    (hf : is_file e = true) (he : get_file_hash h e = none) :
    build_destination_hash_cache h (l ++ [e]) =
      build_destination_hash_cache h l ∧
    ((cacheLookup (build_destination_hash_cache h l) d).isSome = true ↔
      ∃ x ∈ l, is_file x = true ∧ get_file_hash h x = some d) := by
  constructor
  · rw [build_destination_hash_cache, build_destination_hash_cache,
      List.foldl_append]
    simp [hf, he]
  · rw [build_lookup]
    exact lastHashMatch_isSome h l d

/-- Readable destination file used in the C10 witness. -/
def rC10 : FsEntry :=
  { path := 50, ext := ".jpg", kind := EntryKind.regular, content := [5],
    readable := true }

/-- Unreadable destination file used in the C10 witness. -/
def eC10 : FsEntry :=
  { path := 51, ext := ".jpg", kind := EntryKind.regular, content := [6],
    readable := false }

/-- Witness for C10 at a concrete two-file destination walk. -/
theorem c10_witness :
    is_file eC10 = true ∧
    get_file_hash id eC10 = none ∧
    (build_destination_hash_cache id ([rC10] ++ [eC10]) =
        build_destination_hash_cache id [rC10] ∧
      ((cacheLookup (build_destination_hash_cache id [rC10]) [5]).isSome = true ↔
        ∃ x ∈ [rC10], is_file x = true ∧ get_file_hash id x = some [5])) :=
  ⟨rfl, rfl, c10_build_omits_failed_hash id [rC10] eC10 [5] rfl rfl⟩

end BackupPhotos
